import Mathlib

/-!
Verification of the websocket transport unit
(`src/browser/transport/web_socket_connection.rs`).

The Rust unit is embedded shallowly: each function becomes a Lean
function over explicit state.  The environment around the unit (the
socket, the decoder, the consumer channel's receiving end) is made
explicit as parameters:

* the inbound stream `receiver.incoming_messages()` is a list of
  `Result<OwnedMessage, WebSocketError>` items (`InEvent`);
* the decoder `parse_raw_message` (defined in `crate::types`, outside
  this unit) is a parameter `parse : String → Option AppMessage`;
* the consumer `mpsc::Sender` is modelled by `closedFrom : Option Nat`:
  `some n` means the receiving end is dropped after the `n`-th
  successful send, so every later send attempt fails; `none` means the
  receiver stays alive.
-/

namespace WebSocketTransport

/-- Errors yielded by the websocket crate's reader, as matched at source
lines 67-79: `NoDataAvailable` and `IoError` have their own arms, every
other variant falls to the wildcard. -/
inductive WebSocketError
  | protocolError (desc : String)
  | dataFrameError (desc : String)
  | noDataAvailable
  | ioError (desc : String)
  | utf8Error
  deriving DecidableEq, Repr

/-- Frames of the websocket crate's `OwnedMessage`: the dispatch loop
only distinguishes `Text` from everything else (source lines 82, 93-95). -/
inductive OwnedMessage
  | text (s : String)
  | binary (data : List Nat)
  | close
  | ping (data : List Nat)
  | pong (data : List Nat)
  deriving DecidableEq, Repr

/-- Modelled from the spec: `crate::types` (not under `src/`) defines the
typed application messages produced by `parse_raw_message`; per the spec the
Message Decoder "turns a raw text frame into a typed application message, or
reports it as unrecognized", and a decoded application message is distinct
from the `ConnectionShutdown` sentinel (spec section 3, `DispatchedMessage`). -/
inductive AppMessage
  | event (payload : String)
  | response (payload : String)
  deriving DecidableEq, Repr

/-- Modelled from the spec: the union carried on the consumer channel
(`crate::types::Message`): either a successfully decoded application
message or the terminal `ConnectionShutdown` sentinel. -/
inductive Message
  | app (m : AppMessage)
  | connectionShutdown
  deriving DecidableEq, Repr

/-- One item yielded by `receiver.incoming_messages()`: a
`Result<OwnedMessage, WebSocketError>`. -/
inductive InEvent
  | err (e : WebSocketError)
  | ok (m : OwnedMessage)
  deriving DecidableEq, Repr

/-- Whether a send on the consumer channel succeeds when `sent` sends
have succeeded so far.  `closedFrom = some n`: the receiving end is gone
once `n` sends have succeeded; `none`: always open. -/
def channelOpen (closedFrom : Option Nat) (sent : Nat) : Bool :=
  match closedFrom with
  | none => true
  | some n => decide (sent < n)

/-- How the `for ws_message in receiver.incoming_messages()` loop at
source lines 65-98 ended. -/
inductive LoopExit
  | streamEnded
  | brokeBenign
  | brokeSendFail
  | panicked
  deriving DecidableEq, Repr

/-- The read loop of `dispatch_incoming_messages` (source lines 65-98).
Returns the messages delivered to the consumer channel (in order), the
number of successful sends, and how the loop ended:

* `Err(NoDataAvailable)` and `Err(IoError(_))` break the loop;
* any other `Err(_)` panics;
* `Ok(Text(s))`: if `parse_raw_message` succeeds the message is sent,
  and a failed send breaks the loop; if parsing fails the frame is
  dropped (trace log only) and the loop continues;
* any other `Ok(_)` frame panics. -/
def runLoop (parse : String → Option AppMessage) (closedFrom : Option Nat) :
    List InEvent → Nat → List Message × Nat × LoopExit
  | [], sent => ([], sent, LoopExit.streamEnded)
  | InEvent.err e :: _, sent =>
    match e with
    | WebSocketError.noDataAvailable => ([], sent, LoopExit.brokeBenign)
    | WebSocketError.ioError _ => ([], sent, LoopExit.brokeBenign)
    | _ => ([], sent, LoopExit.panicked)
  | InEvent.ok m :: rest, sent =>
    match m with
    | OwnedMessage.text s =>
      match parse s with
      | some am =>
        if channelOpen closedFrom sent then
          let r := runLoop parse closedFrom rest (sent + 1)
          (Message.app am :: r.1, r.2)
        else ([], sent, LoopExit.brokeSendFail)
      | none => runLoop parse closedFrom rest sent
    | _ => ([], sent, LoopExit.panicked)

/-- How the worker running `dispatch_incoming_messages` terminated:
normal return, or a `panic!` unwinding the thread. -/
inductive DispatchOutcome
  | returned
  | panicked
  deriving DecidableEq, Repr

/-- Observable result of one run of `dispatch_incoming_messages`:
everything delivered on the consumer channel in order, how the worker
terminated, and the post-loop `ConnectionShutdown` send at source lines
100-103 (`none`: never attempted because the loop panicked; `some true`:
attempted and succeeded; `some false`: attempted, failed because the
channel was closed, and the failure was only logged). -/
structure DispatchResult where
  delivered : List Message
  outcome : DispatchOutcome
  shutdownSend : Option Bool
  deriving DecidableEq, Repr

/-- `dispatch_incoming_messages` (source lines 60-104): run the read
loop; a `panic!` unwinds before the post-loop send; otherwise exactly one
`ConnectionShutdown` send is attempted, and its failure is swallowed
(`warn!` only). -/
def dispatch_incoming_messages (parse : String → Option AppMessage)
    (closedFrom : Option Nat) (events : List InEvent) : DispatchResult :=
  let r := runLoop parse closedFrom events 0
  match r.2.2 with
  | LoopExit.panicked =>
    { delivered := r.1, outcome := DispatchOutcome.panicked, shutdownSend := none }
  | _ =>
    if channelOpen closedFrom r.2.1 then
      { delivered := r.1 ++ [Message.connectionShutdown],
        outcome := DispatchOutcome.returned, shutdownSend := some true }
    else
      { delivered := r.1, outcome := DispatchOutcome.returned, shutdownSend := some false }

/-- The classification performed by the match arms at source lines
67-79: `NoDataAvailable` and `IoError` are benign end-of-stream, every
other error kind is an unexpected protocol violation. -/
def benignStreamEnd : WebSocketError → Bool
  | WebSocketError.noDataAvailable => true
  | WebSocketError.ioError _ => true
  | _ => false

/-- Inbound items on which the loop body panics: a read error that is
neither `NoDataAvailable` nor `IoError`, or a non-text frame. -/
def isFatalEvent : InEvent → Bool
  | InEvent.err e => !benignStreamEnd e
  | InEvent.ok (OwnedMessage.text _) => false
  | InEvent.ok _ => true

/-- True when the read loop consumes the whole event list without
breaking or panicking (it is still reading at the end of `events`). -/
def loopContinues (parse : String → Option AppMessage) (closedFrom : Option Nat)
    (events : List InEvent) : Bool :=
  match (runLoop parse closedFrom events 0).2.2 with
  | LoopExit.streamEnded => true
  | _ => false

/-- The outbound half `websocket::sender::Writer<TcpStream>`, with the
socket state needed to model write and shutdown failures: `written` is
the list of frames written so far, `broken` says whether the underlying
stream is closed or errored (so the next write or shutdown fails), and
`writeAttempts` counts underlying write attempts. -/
structure Writer where
  written : List OwnedMessage
  broken : Bool
  writeAttempts : Nat
  deriving DecidableEq, Repr

/-- A failure of an operation on the outbound half. -/
inductive SendError
  | sendError (desc : String)
  deriving DecidableEq, Repr

/-- `send_message` (source lines 114-119): build one text frame from the
given text, take the lock (elided: the model is sequential), issue one
underlying write with `sender.send_message(&message)?`, and propagate a
failure to the caller via `?`. -/
def send_message (w : Writer) (message_text : String) : Writer × Except SendError Unit :=
  let message := OwnedMessage.text message_text
  if w.broken then
    ({ w with writeAttempts := w.writeAttempts + 1 },
     Except.error (SendError.sendError "underlying write failed"))
  else
    ({ w with written := w.written ++ [message], writeAttempts := w.writeAttempts + 1 },
     Except.ok ())

/-- The websocket writer's `shutdown_all`: fails when the stream is
already closed or errored, otherwise closes it. -/
def shutdown_all (w : Writer) : Writer × Except SendError Unit :=
  if w.broken then (w, Except.error (SendError.sendError "already closed"))
  else ({ w with broken := true }, Except.ok ())

/-- `shutdown` (source lines 47-58): call `shutdown_all` on the outbound
half; when it fails, only a `debug!` line is emitted — the caller-visible
result carries no error in either branch (the Rust function returns `()`
unconditionally; the `Except` component is what it propagates). -/
def shutdown (w : Writer) : Writer × Except SendError Unit :=
  let r := shutdown_all w
  match r.2 with
  | Except.error _ => (r.1, Except.ok ())
  | Except.ok _ => (r.1, Except.ok ())

/-- A connected `Client<TcpStream>`: the items its reader half will
yield, its writer half, and whether `split()` fails (stream clone
failure). -/
structure Client where
  inbound : List InEvent
  outbound : Writer
  splitFails : Bool
  deriving DecidableEq, Repr

/-- Handshake or split failure surfaced by `new` / `websocket_connection`. -/
inductive ConnectionError
  | connectionError (desc : String)
  deriving DecidableEq, Repr

deriving instance DecidableEq for Except

/-- `websocket_connection` (source lines 106-112): one call to
`ClientBuilder::from_url(ws_url).connect_insecure()?`.  The environment
is modelled as the list of results that successive handshake attempts to
the given URL would produce; exactly the first entry is consumed. -/
def websocket_connection (handshakes : List (Except ConnectionError Client)) :
    Except ConnectionError Client :=
  match handshakes with
  | [] => Except.error (ConnectionError.connectionError "no response")
  | h :: _ => h

/-- `connection.split()?` (source line 33): yields the reader and writer
halves, or fails. -/
def split (c : Client) : Except ConnectionError (List InEvent × Writer) :=
  if c.splitFails then Except.error (ConnectionError.connectionError "split failed")
  else Except.ok (c.inbound, c.outbound)

/-- The connection handle (`WebSocketConnection` struct, source lines
14-17): the outbound half behind a mutex (elided: the model is
sequential) and the process id. -/
structure WebSocketConnection where
  sender : Writer
  process_id : Option Nat
  deriving DecidableEq, Repr

/-- Observable result of one call to `new`: the returned value, whether
a dispatch worker thread was spawned, the reader half handed to it, and
everything the worker delivers on the consumer channel. -/
structure NewResult where
  result : Except ConnectionError WebSocketConnection
  spawned : Bool
  workerInput : Option (List InEvent)
  delivered : List Message
  deriving DecidableEq, Repr

/-- `new` (source lines 27-45): perform the handshake via
`websocket_connection`, split the client, spawn the dispatch worker on
the reader half, and return the handle owning the writer half.  An error
from the handshake or the split propagates via `?` before the spawn. -/
def new (handshakes : List (Except ConnectionError Client))
    (parse : String → Option AppMessage) (closedFrom : Option Nat)
    (process_id : Option Nat) : NewResult :=
  match websocket_connection handshakes with
  | Except.error e =>
    { result := Except.error e, spawned := false, workerInput := none, delivered := [] }
  | Except.ok connection =>
    match split connection with
    | Except.error e =>
      { result := Except.error e, spawned := false, workerInput := none, delivered := [] }
    | Except.ok (websocket_receiver, sender) =>
      { result := Except.ok { sender := sender, process_id := process_id },
        spawned := true,
        workerInput := some websocket_receiver,
        delivered := (dispatch_incoming_messages parse closedFrom websocket_receiver).delivered }

/-! ### Structural lemmas about the read loop -/

/-- Everything the read loop itself delivers is a decoded application
message: the sentinel can only come from the post-loop send. -/
theorem runLoop_delivered_map (parse : String → Option AppMessage)
    (closedFrom : Option Nat) :
    ∀ (events : List InEvent) (sent : Nat),
      ∃ apps : List AppMessage,
        (runLoop parse closedFrom events sent).1 = apps.map Message.app := by
  intro events
  induction events with
  | nil => intro sent; exact ⟨[], rfl⟩
  | cons e rest ih =>
    intro sent
    cases e with
    | err we => cases we <;> exact ⟨[], rfl⟩
    | ok m =>
      cases m with
      | text s =>
        cases hp : parse s with
        | some am =>
          cases hc : channelOpen closedFrom sent with
          | true =>
            obtain ⟨apps, ha⟩ := ih (sent + 1)
            exact ⟨am :: apps, by simp [runLoop, hp, hc, ha]⟩
          | false => exact ⟨[], by simp [runLoop, hp, hc]⟩
        | none =>
          obtain ⟨apps, ha⟩ := ih sent
          exact ⟨apps, by simp [runLoop, hp, ha]⟩
      | binary d => exact ⟨[], rfl⟩
      | close => exact ⟨[], rfl⟩
      | ping d => exact ⟨[], rfl⟩
      | pong d => exact ⟨[], rfl⟩

/-- A `ConnectionShutdown` never appears among the read loop's own
deliveries. -/
theorem runLoop_no_shutdown (parse : String → Option AppMessage)
    (closedFrom : Option Nat) (events : List InEvent) (sent : Nat) :
    Message.connectionShutdown ∉ (runLoop parse closedFrom events sent).1 := by
  obtain ⟨apps, ha⟩ := runLoop_delivered_map parse closedFrom events sent
  rw [ha]
  simp

/-- When the loop consumes `pre` without stopping, running it on
`pre ++ l` first replays `pre` and then continues into `l` with the
updated send counter. -/
theorem runLoop_append (parse : String → Option AppMessage) (closedFrom : Option Nat) :
    ∀ (pre l : List InEvent) (sent : Nat),
      (runLoop parse closedFrom pre sent).2.2 = LoopExit.streamEnded →
      runLoop parse closedFrom (pre ++ l) sent
        = ((runLoop parse closedFrom pre sent).1
             ++ (runLoop parse closedFrom l ((runLoop parse closedFrom pre sent).2.1)).1,
           (runLoop parse closedFrom l ((runLoop parse closedFrom pre sent).2.1)).2) := by
  intro pre
  induction pre with
  | nil => intro l sent _; simp [runLoop]
  | cons e rest ih =>
    intro l sent h
    cases e with
    | err we => cases we <;> simp [runLoop] at h
    | ok m =>
      cases m with
      | text s =>
        cases hp : parse s with
        | some am =>
          cases hc : channelOpen closedFrom sent with
          | true =>
            have h' : (runLoop parse closedFrom rest (sent + 1)).2.2
                = LoopExit.streamEnded := by
              simpa [runLoop, hp, hc] using h
            simp [runLoop, hp, hc, ih l (sent + 1) h']
          | false => simp [runLoop, hp, hc] at h
        | none =>
          have h' : (runLoop parse closedFrom rest sent).2.2 = LoopExit.streamEnded := by
            simpa [runLoop, hp] using h
          simp [runLoop, hp, ih l sent h']
      | binary d => simp [runLoop] at h
      | close => simp [runLoop] at h
      | ping d => simp [runLoop] at h
      | pong d => simp [runLoop] at h

/-- Dropping an undecodable text frame anywhere in the stream leaves the
whole run of the read loop unchanged. -/
theorem runLoop_drop_undecodable (parse : String → Option AppMessage)
    (closedFrom : Option Nat) (s : String) (hs : parse s = none) :
    ∀ (pre post : List InEvent) (sent : Nat),
      runLoop parse closedFrom (pre ++ InEvent.ok (OwnedMessage.text s) :: post) sent
        = runLoop parse closedFrom (pre ++ post) sent := by
  intro pre
  induction pre with
  | nil => intro post sent; simp [runLoop, hs]
  | cons e rest ih =>
    intro post sent
    cases e with
    | err we => cases we <;> simp [runLoop]
    | ok m =>
      cases m with
      | text t =>
        cases hp : parse t with
        | some am =>
          cases hc : channelOpen closedFrom sent with
          | true => simp [runLoop, hp, hc, ih post (sent + 1)]
          | false => simp [runLoop, hp, hc]
        | none => simp [runLoop, hp, ih post sent]
      | binary d => simp [runLoop]
      | close => simp [runLoop]
      | ping d => simp [runLoop]
      | pong d => simp [runLoop]

/-- What the whole dispatch run delivers is the read loop's deliveries,
possibly followed by the single post-loop sentinel. -/
theorem dispatch_delivered_cases (parse : String → Option AppMessage)
    (closedFrom : Option Nat) (events : List InEvent) :
    (dispatch_incoming_messages parse closedFrom events).delivered
        = (runLoop parse closedFrom events 0).1
    ∨ (dispatch_incoming_messages parse closedFrom events).delivered
        = (runLoop parse closedFrom events 0).1 ++ [Message.connectionShutdown] := by
  unfold dispatch_incoming_messages
  cases hex : (runLoop parse closedFrom events 0).2.2 <;>
    cases hc : channelOpen closedFrom (runLoop parse closedFrom events 0).2.1 <;>
      simp [hex, hc]

/-- `loopContinues` unfolded to the exit value of the read loop. -/
theorem loopContinues_iff (parse : String → Option AppMessage)
    (closedFrom : Option Nat) (events : List InEvent) :
    loopContinues parse closedFrom events = true
      ↔ (runLoop parse closedFrom events 0).2.2 = LoopExit.streamEnded := by
  unfold loopContinues
  cases h : (runLoop parse closedFrom events 0).2.2 <;> simp [h]

/-- A fatal item at the head makes the loop body panic at once,
delivering nothing and reading nothing further. -/
theorem runLoop_fatal_head (parse : String → Option AppMessage)
    (closedFrom : Option Nat) (e : InEvent) (rest : List InEvent) (sent : Nat)
    (hf : isFatalEvent e = true) :
    runLoop parse closedFrom (e :: rest) sent = ([], sent, LoopExit.panicked) := by
  cases e with
  | err we => cases we <;> simp [isFatalEvent, benignStreamEnd] at hf ⊢ <;> rfl
  | ok m =>
    cases m with
    | text s => simp [isFatalEvent] at hf
    | binary d => rfl
    | close => rfl
    | ping d => rfl
    | pong d => rfl

/-- A benign read error at the head breaks the loop at once. -/
theorem runLoop_benign_head (parse : String → Option AppMessage)
    (closedFrom : Option Nat) (we : WebSocketError) (rest : List InEvent) (sent : Nat)
    (hb : benignStreamEnd we = true) :
    runLoop parse closedFrom (InEvent.err we :: rest) sent
      = ([], sent, LoopExit.brokeBenign) := by
  cases we <;> simp [benignStreamEnd] at hb ⊢ <;> rfl

/-- After any read error the loop reads nothing further: the run does
not depend on what follows the error. -/
theorem runLoop_err_head_drops_rest (parse : String → Option AppMessage)
    (closedFrom : Option Nat) (we : WebSocketError) (rest rest' : List InEvent)
    (sent : Nat) :
    runLoop parse closedFrom (InEvent.err we :: rest) sent
      = runLoop parse closedFrom (InEvent.err we :: rest') sent := by
  cases we <;> rfl

/-- C1: across one run of the dispatch loop, the consumer channel
receives a (read-ordered) sequence of decoded application messages,
either alone or followed by a single terminal `ConnectionShutdown`: the
sentinel occurs at most once, it is the last item delivered when it
occurs, and every delivered decoded message precedes it. -/
theorem dispatch_shutdown_unique_and_last (parse : String → Option AppMessage)
    (closedFrom : Option Nat) (events : List InEvent) :
    ∃ apps : List AppMessage,
      ((dispatch_incoming_messages parse closedFrom events).delivered
          = apps.map Message.app
        ∨ (dispatch_incoming_messages parse closedFrom events).delivered
          = apps.map Message.app ++ [Message.connectionShutdown])
      ∧ List.count Message.connectionShutdown
          (dispatch_incoming_messages parse closedFrom events).delivered ≤ 1 := by
  obtain ⟨apps, ha⟩ := runLoop_delivered_map parse closedFrom events 0
  refine ⟨apps, ?_⟩
  have hcount : List.count Message.connectionShutdown (apps.map Message.app) = 0 := by
    rw [List.count_eq_zero]
    simp
  rcases dispatch_delivered_cases parse closedFrom events with hd | hd <;>
    rw [hd, ha]
  · exact ⟨Or.inl rfl, by rw [hcount]; omega⟩
  · refine ⟨Or.inr rfl, ?_⟩
    rw [List.count_append, hcount]
    simp

/-- C2 counterexample: when the first inbound frame is binary, the
consumer channel receives nothing at all — in particular it does not
receive `ConnectionShutdown` — because the worker panics. -/
theorem dispatch_binary_first_frame_counterexample :
    (dispatch_incoming_messages (fun _ => none) none
        [InEvent.ok (OwnedMessage.binary [])]).delivered = []
    ∧ (dispatch_incoming_messages (fun _ => none) none
        [InEvent.ok (OwnedMessage.binary [])]).outcome = DispatchOutcome.panicked :=
  ⟨rfl, rfl⟩

/-- C2 (amended): if, after a successful connection, the peer's first
frame is binary (non-text), the dispatch loop terminates by panicking
(protocol violation); nothing is delivered on the consumer channel — in
particular no `ConnectionShutdown`, since the post-loop sentinel send is
never attempted. -/
theorem dispatch_binary_frame_panics (parse : String → Option AppMessage)
    (closedFrom : Option Nat) (data : List Nat) (rest : List InEvent) :
    (dispatch_incoming_messages parse closedFrom
        (InEvent.ok (OwnedMessage.binary data) :: rest)).delivered = []
    ∧ (dispatch_incoming_messages parse closedFrom
        (InEvent.ok (OwnedMessage.binary data) :: rest)).outcome
        = DispatchOutcome.panicked
    ∧ (dispatch_incoming_messages parse closedFrom
        (InEvent.ok (OwnedMessage.binary data) :: rest)).shutdownSend = none :=
  ⟨rfl, rfl, rfl⟩

/-- C3: whenever the loop, still reading, receives a non-text frame or a
read error that is neither `NoDataAvailable` nor `IoError`, the worker
terminates by panic; on that path the post-loop sentinel send is skipped
and no `ConnectionShutdown` is ever sent on the consumer channel. -/
theorem dispatch_fatal_event_panics_no_shutdown (parse : String → Option AppMessage)
    (closedFrom : Option Nat) (pre rest : List InEvent) (e : InEvent)
    (hcont : loopContinues parse closedFrom pre = true)
    (hfatal : isFatalEvent e = true) :
    (dispatch_incoming_messages parse closedFrom (pre ++ e :: rest)).outcome
        = DispatchOutcome.panicked
    ∧ (dispatch_incoming_messages parse closedFrom (pre ++ e :: rest)).shutdownSend = none
    ∧ Message.connectionShutdown
        ∉ (dispatch_incoming_messages parse closedFrom (pre ++ e :: rest)).delivered := by
  have hstream := (loopContinues_iff parse closedFrom pre).mp hcont
  have happ := runLoop_append parse closedFrom pre (e :: rest) 0 hstream
  rw [runLoop_fatal_head parse closedFrom e rest
    ((runLoop parse closedFrom pre 0).2.1) hfatal] at happ
  have hns := runLoop_no_shutdown parse closedFrom pre 0
  unfold dispatch_incoming_messages
  rw [happ]
  simpa using hns

/-- Witness for C3 at a concrete input: a `Close` frame as the first
item makes the worker panic. -/
theorem dispatch_fatal_event_witness :
    (dispatch_incoming_messages (fun _ => none) none
        [InEvent.ok OwnedMessage.close]).outcome = DispatchOutcome.panicked :=
  (dispatch_fatal_event_panics_no_shutdown (fun _ => none) none [] []
    (InEvent.ok OwnedMessage.close) rfl rfl).1

/-- Two event lists on which the read loop computes the same run give
the same dispatch result. -/
theorem dispatch_congr (parse : String → Option AppMessage) (closedFrom : Option Nat)
    (ev1 ev2 : List InEvent)
    (h : runLoop parse closedFrom ev1 0 = runLoop parse closedFrom ev2 0) :
    dispatch_incoming_messages parse closedFrom ev1
      = dispatch_incoming_messages parse closedFrom ev2 := by
  unfold dispatch_incoming_messages
  rw [h]

/-- A decodable text frame arriving while the channel is closed breaks
the loop at once without delivering anything further. -/
theorem runLoop_send_fail_head (parse : String → Option AppMessage)
    (closedFrom : Option Nat) (s : String) (am : AppMessage) (rest : List InEvent)
    (sent : Nat) (hparse : parse s = some am)
    (hc : channelOpen closedFrom sent = false) :
    runLoop parse closedFrom (InEvent.ok (OwnedMessage.text s) :: rest) sent
      = ([], sent, LoopExit.brokeSendFail) := by
  simp [runLoop, hparse, hc]

/-- C4: a read error of kind `NoDataAvailable` or `IoError` is benign
end-of-stream and makes the loop exit normally (the worker returns);
every other error kind is an unexpected protocol violation, fatal for
the connection (the worker panics); in either case no further frames are
read — the run does not depend on anything after the error. -/
theorem dispatch_read_error_classification (parse : String → Option AppMessage)
    (closedFrom : Option Nat) (pre rest rest' : List InEvent) (we : WebSocketError)
    (hcont : loopContinues parse closedFrom pre = true) :
    (benignStreamEnd we = true →
       (dispatch_incoming_messages parse closedFrom
           (pre ++ InEvent.err we :: rest)).outcome = DispatchOutcome.returned)
    ∧ (benignStreamEnd we = false →
       (dispatch_incoming_messages parse closedFrom
           (pre ++ InEvent.err we :: rest)).outcome = DispatchOutcome.panicked)
    ∧ dispatch_incoming_messages parse closedFrom (pre ++ InEvent.err we :: rest)
        = dispatch_incoming_messages parse closedFrom (pre ++ InEvent.err we :: rest') := by
  have hstream := (loopContinues_iff parse closedFrom pre).mp hcont
  have happ := runLoop_append parse closedFrom pre (InEvent.err we :: rest) 0 hstream
  have happ' := runLoop_append parse closedFrom pre (InEvent.err we :: rest') 0 hstream
  refine ⟨?_, ?_, ?_⟩
  · intro hb
    rw [runLoop_benign_head parse closedFrom we rest
      ((runLoop parse closedFrom pre 0).2.1) hb] at happ
    unfold dispatch_incoming_messages
    rw [happ]
    cases hc : channelOpen closedFrom (runLoop parse closedFrom pre 0).2.1 <;> simp [hc]
  · intro hb
    have hf : isFatalEvent (InEvent.err we) = true := by
      simp [isFatalEvent, hb]
    rw [runLoop_fatal_head parse closedFrom (InEvent.err we) rest
      ((runLoop parse closedFrom pre 0).2.1) hf] at happ
    unfold dispatch_incoming_messages
    rw [happ]
  · refine dispatch_congr parse closedFrom _ _ ?_
    rw [happ, happ',
      runLoop_err_head_drops_rest parse closedFrom we rest rest'
        ((runLoop parse closedFrom pre 0).2.1)]

/-- Witness for C4 at a concrete input: a `NoDataAvailable` read error
as the first item makes the worker exit normally. -/
theorem dispatch_read_error_witness :
    (dispatch_incoming_messages (fun _ => none) none
        [InEvent.err WebSocketError.noDataAvailable]).outcome
      = DispatchOutcome.returned :=
  (dispatch_read_error_classification (fun _ => none) none [] [] []
    WebSocketError.noDataAvailable rfl).1 rfl

/-- C5: whenever the read loop exits (any non-panic exit), exactly one
`ConnectionShutdown` send is attempted on the consumer channel; when it
succeeds the sentinel is the last delivered item, and when the channel
is already closed the failure is swallowed — the worker still returns
normally and nothing else is delivered. -/
theorem dispatch_exit_sends_one_shutdown (parse : String → Option AppMessage)
    (closedFrom : Option Nat) (events : List InEvent)
    (h : (dispatch_incoming_messages parse closedFrom events).outcome
      = DispatchOutcome.returned) :
    (∃ b, (dispatch_incoming_messages parse closedFrom events).shutdownSend = some b)
    ∧ ((dispatch_incoming_messages parse closedFrom events).shutdownSend = some true →
        ∃ pre, (dispatch_incoming_messages parse closedFrom events).delivered
          = pre ++ [Message.connectionShutdown])
    ∧ ((dispatch_incoming_messages parse closedFrom events).shutdownSend = some false →
        Message.connectionShutdown
          ∉ (dispatch_incoming_messages parse closedFrom events).delivered) := by
  have hns := runLoop_no_shutdown parse closedFrom events 0
  unfold dispatch_incoming_messages at h ⊢
  cases hex : (runLoop parse closedFrom events 0).2.2 <;>
    cases hc : channelOpen closedFrom (runLoop parse closedFrom events 0).2.1 <;>
      simp [hex, hc] at h ⊢ <;>
        exact hns

/-- Witness for C5 at a concrete input: with an empty inbound stream and
a live channel, the sentinel is delivered last. -/
theorem dispatch_exit_shutdown_witness :
    ∃ pre, (dispatch_incoming_messages (fun _ => none) none []).delivered
      = pre ++ [Message.connectionShutdown] :=
  (dispatch_exit_sends_one_shutdown (fun _ => none) none [] rfl).2.1 rfl

/-- C6: a text frame whose decoding fails is dropped: nothing is sent
for it, the loop does not terminate on it, and the whole observable run
— delivery of every surrounding valid frame, the termination mode and
the single sentinel — is exactly as if the frame had not been read. -/
theorem dispatch_drops_undecodable_frame (parse : String → Option AppMessage)
    (closedFrom : Option Nat) (pre post : List InEvent) (s : String)
    (hs : parse s = none) :
    dispatch_incoming_messages parse closedFrom
        (pre ++ InEvent.ok (OwnedMessage.text s) :: post)
      = dispatch_incoming_messages parse closedFrom (pre ++ post) :=
  dispatch_congr parse closedFrom _ _
    (runLoop_drop_undecodable parse closedFrom s hs pre post 0)

/-- Witness for C6 at a concrete input: an undecodable frame alone
behaves like the empty stream. -/
theorem dispatch_drops_undecodable_witness :
    dispatch_incoming_messages (fun _ => none) none
        [InEvent.ok (OwnedMessage.text "")]
      = dispatch_incoming_messages (fun _ => none) none [] :=
  dispatch_drops_undecodable_frame (fun _ => none) none [] [] "" rfl

/-- C7: when the consumer channel has no remaining receivers, the loop
stops reading at its next attempt to forward a decoded message: the
first failed send breaks the loop (nothing after that frame is read, the
message and the sentinel are not delivered, the send is never retried)
and the worker returns normally, treating it as implicit shutdown. -/
theorem dispatch_closed_channel_breaks (parse : String → Option AppMessage)
    (n : Nat) (pre rest rest' : List InEvent) (s : String) (am : AppMessage)
    (hcont : loopContinues parse (some n) pre = true)
    (hfull : channelOpen (some n) (runLoop parse (some n) pre 0).2.1 = false)
    (hparse : parse s = some am) :
    (dispatch_incoming_messages parse (some n)
        (pre ++ InEvent.ok (OwnedMessage.text s) :: rest)).outcome
        = DispatchOutcome.returned
    ∧ (dispatch_incoming_messages parse (some n)
        (pre ++ InEvent.ok (OwnedMessage.text s) :: rest)).delivered
        = (runLoop parse (some n) pre 0).1
    ∧ (dispatch_incoming_messages parse (some n)
        (pre ++ InEvent.ok (OwnedMessage.text s) :: rest)).shutdownSend = some false
    ∧ dispatch_incoming_messages parse (some n)
          (pre ++ InEvent.ok (OwnedMessage.text s) :: rest)
        = dispatch_incoming_messages parse (some n)
          (pre ++ InEvent.ok (OwnedMessage.text s) :: rest') := by
  have hstream := (loopContinues_iff parse (some n) pre).mp hcont
  have happ := runLoop_append parse (some n) pre
    (InEvent.ok (OwnedMessage.text s) :: rest) 0 hstream
  have happ' := runLoop_append parse (some n) pre
    (InEvent.ok (OwnedMessage.text s) :: rest') 0 hstream
  rw [runLoop_send_fail_head parse (some n) s am rest
    ((runLoop parse (some n) pre 0).2.1) hparse hfull] at happ
  rw [runLoop_send_fail_head parse (some n) s am rest'
    ((runLoop parse (some n) pre 0).2.1) hparse hfull] at happ'
  refine ⟨?_, ?_, ?_, dispatch_congr parse (some n) _ _ (by rw [happ, happ'])⟩ <;>
    · unfold dispatch_incoming_messages
      rw [happ]
      simp [hfull]

/-- Witness for C7 at a concrete input: with the receiver gone from the
start, the first decodable frame breaks the loop and the worker returns. -/
theorem dispatch_closed_channel_witness :
    (dispatch_incoming_messages (fun _ => some (AppMessage.event "e")) (some 0)
        [InEvent.ok (OwnedMessage.text "x")]).outcome = DispatchOutcome.returned :=
  (dispatch_closed_channel_breaks (fun _ => some (AppMessage.event "e")) 0 [] [] []
    "x" (AppMessage.event "e") rfl rfl rfl).1

/-- C8: `send_message` issues exactly one underlying write (no retry in
either outcome); when the write succeeds it has appended exactly one
text frame containing the given text and the caller gets success; when
the underlying write fails (socket already closed) the error is returned
to the caller and nothing was written. -/
theorem send_message_one_frame (w : Writer) (message_text : String) :
    (send_message w message_text).1.writeAttempts = w.writeAttempts + 1
    ∧ (w.broken = false →
        (send_message w message_text).2 = Except.ok ()
        ∧ (send_message w message_text).1.written
            = w.written ++ [OwnedMessage.text message_text])
    ∧ (w.broken = true →
        (∃ e, (send_message w message_text).2 = Except.error e)
        ∧ (send_message w message_text).1.written = w.written) := by
  cases hb : w.broken <;> simp [send_message, hb]

/-- Witness for C8 at a concrete input: writing `ping` on a healthy
outbound half appends exactly that text frame and succeeds. -/
theorem send_message_witness :
    (send_message ⟨[], false, 0⟩ "ping").2 = Except.ok ()
    ∧ (send_message ⟨[], false, 0⟩ "ping").1.written = [OwnedMessage.text "ping"] := by
  have h := (send_message_one_frame ⟨[], false, 0⟩ "ping").2.1 rfl
  exact ⟨h.1, by rw [h.2]; rfl⟩

/-- C9: `shutdown` never fails its caller: for every state of the
outbound half — including one already closed or errored, on which the
underlying `shutdown_all` does fail — the failure is swallowed (logged
only) and `shutdown` returns normally, propagating no error. -/
theorem shutdown_never_fails_caller (w : Writer) :
    (shutdown w).2 = Except.ok ()
    ∧ (w.broken = true →
        (∃ e, (shutdown_all w).2 = Except.error e) ∧ (shutdown w).2 = Except.ok ()) := by
  cases hb : w.broken <;> simp [shutdown, shutdown_all, hb]

/-- Witness for C9 at a concrete input: shutting down an already-closed
outbound half still returns normally. -/
theorem shutdown_witness :
    (shutdown ⟨[], true, 0⟩).2 = Except.ok () :=
  ((shutdown_never_fails_caller ⟨[], true, 0⟩).2 rfl).2

/-- C10: `new` performs the handshake exactly once — only the first
attempt's result ever matters, so there is no retry; on handshake
failure the error is returned, no dispatch worker is spawned and nothing
is ever delivered on the consumer channel; on success the halves are
split, the spawned worker owns the reader half and the returned handle
owns the writer half. -/
theorem new_handshake_once (first : Except ConnectionError Client)
    (hs hs' : List (Except ConnectionError Client))
    (parse : String → Option AppMessage) (closedFrom : Option Nat)
    (pid : Option Nat) :
    new (first :: hs) parse closedFrom pid = new (first :: hs') parse closedFrom pid
    ∧ (∀ e, first = Except.error e →
        new (first :: hs) parse closedFrom pid
          = { result := Except.error e, spawned := false,
              workerInput := none, delivered := [] })
    ∧ (∀ c, first = Except.ok c → c.splitFails = false →
        (new (first :: hs) parse closedFrom pid).spawned = true
        ∧ (new (first :: hs) parse closedFrom pid).workerInput = some c.inbound
        ∧ (new (first :: hs) parse closedFrom pid).result
            = Except.ok { sender := c.outbound, process_id := pid }) := by
  refine ⟨rfl, ?_, ?_⟩
  · intro e he
    subst he
    rfl
  · intro c hc hsf
    subst hc
    refine ⟨?_, ?_, ?_⟩ <;> simp [new, websocket_connection, split, hsf]

/-- Witness for C10 at a concrete input: a refused handshake spawns no
worker. -/
theorem new_witness :
    (new [Except.error (ConnectionError.connectionError "refused")]
        (fun _ => none) none none).spawned = false := by
  have h := (new_handshake_once
    (Except.error (ConnectionError.connectionError "refused")) [] []
    (fun _ => none) none none).2.1 (ConnectionError.connectionError "refused") rfl
  rw [h]

end WebSocketTransport
